import Mathlib

/-!
Verification of the PyFrame publishing script (src/scripts/publish.py).

The script is a sequential, interactive workflow: it checks for the
project-root marker (pyproject.toml), checks that the tools build and
twine import, presents a four-option menu, and then cleans, builds,
checks, and optionally uploads the package via subprocesses, exiting
with sys.exit(1) on every failure and returning normally (exit code 0)
on success.

The embedding below models:
  - Python str.strip / str.lower (pyStrip, pyLower);
  - run_command over an oracle describing what subprocess.run does
    (a completed process with return code / stdout / stderr, or a
    failure to spawn the child at all, which in Python raises an
    OSError such as FileNotFoundError out of subprocess.run);
  - check_requirements over an oracle telling which module names are
    importable;
  - clean_build over a rose-tree filesystem restricted to what the
    function observes: the named entries of the current directory and
    their subtrees, each entry a regular file or a directory.
    shutil.rmtree on a path that exists but is not a directory raises,
    which the Except error channel records;
  - main as a pure function from an environment (marker presence,
    importability, filesystem, the two raw input lines, and the
    success of the four subprocess commands) to an outcome (normal
    return = exit 0, sys.exit code, or crash by uncaught exception,
    which terminates the Python process with a non-zero status) plus
    the ordered trace of the side-effect operations performed.
-/

/-- Python str.strip() with no argument removes ASCII whitespace
characters space, tab, newline, carriage return, vertical tab and form
feed from both ends (non-ASCII whitespace is out of scope here: all
inputs considered are ASCII). -/
def pyIsSpace (c : Char) : Bool :=
  c = ' ' || c = '\t' || c = '\n' || c = '\r' || c = '\x0b' || c = '\x0c'

/-- Model of Python str.strip(): drop whitespace from both ends. -/
def pyStrip (s : String) : String :=
  String.mk (((s.data.dropWhile pyIsSpace).reverse.dropWhile pyIsSpace).reverse)

/-- Model of Python str.lower() on ASCII strings: lowercase each
character. -/
def pyLower (s : String) : String :=
  String.mk (s.data.map Char.toLower)

/-- What subprocess.run(cmd, capture_output=True, text=True) produces:
either a completed child process with its return code and captured
streams, or a failure to spawn the child at all (missing executable,
permission error), in which case Python raises an OSError out of
subprocess.run. -/
inductive SpawnResult where
  | spawned (returncode : Int) (stdout : String) (stderr : String)
  | spawnError
deriving Repr, DecidableEq

/-- The command line joined with single spaces, as str.join produces in
the source. -/
def joinCmd (cmd : List String) : String :=
  String.intercalate (" ") cmd

/-- Embedding of run_command (publish.py lines 13-25). The res argument
is what subprocess.run does for this invocation. The result is an
Except: ok (printed lines, boolean) when run_command returns, error
when the exception from subprocess.run propagates out (run_command has
no try/except). On a non-zero return code it prints the failure line
and the captured stderr and returns False; on return code zero it
prints the captured stdout when non-empty and returns True. -/
def run_command (cmd : List String) (res : SpawnResult) :
    Except Unit (List String × Bool) :=
  match res with
  | SpawnResult.spawnError => Except.error ()
  | SpawnResult.spawned rc out err =>
    let header := "Running: " ++ joinCmd cmd
    if rc ≠ 0 then
      Except.ok ([header, "❌ Command failed: " ++ joinCmd cmd,
                  "Error: " ++ err], false)
    else if out ≠ "" then
      Except.ok ([header, out], true)
    else
      Except.ok ([header], true)

/-- The fixed list of required tools in check_requirements. -/
def required_packages : List String := ["build", "twine"]

/-- Result of check_requirements: the tools whose import was attempted,
in order, the status lines printed for them, and the returned boolean. -/
structure ReqResult where
  attempted : List String
  lines : List String
  ok : Bool
deriving Repr, DecidableEq

/-- The loop of check_requirements over the package list: try to import
each package in order; on success print the installed line and go on; on
ImportError print the two failure lines and return False at once. -/
def checkReqLoop (imp : String → Bool) : List String → ReqResult
  | [] => { attempted := [], lines := [], ok := true }
  | p :: ps =>
    if imp p then
      let r := checkReqLoop imp ps
      { attempted := p :: r.attempted,
        lines := ("✅ " ++ p ++ " is installed") :: r.lines,
        ok := r.ok }
    else
      { attempted := [p],
        lines := ["❌ " ++ p ++ " is not installed",
                  "Install with: pip install " ++ p],
        ok := false }

/-- Embedding of check_requirements (publish.py lines 27-41), over an
oracle imp telling which module names __import__ resolves. -/
def check_requirements (imp : String → Bool) : ReqResult :=
  checkReqLoop imp required_packages

/-- A filesystem node: a regular file or a directory with named
children. Only the shape matters to clean_build, file contents do not. -/
inductive Node where
  | file : Node
  | dir : List (String × Node) → Node

/-- The current directory, as a list of named entries. A real directory
has pairwise-distinct names; none of the results below need to assume
it. -/
abbrev FS := List (String × Node)

/-- Whether a node is a directory, as os.path.isdir reports. -/
def Node.isDir : Node → Bool
  | Node.file => false
  | Node.dir _ => true

/-- Look up the entry with the given name in the current directory
(the first one, as a real filesystem resolves a unique one). -/
def lookupEntry (fs : FS) (name : String) : Option Node :=
  (fs.find? (fun p => p.1 = name)).map (fun p => p.2)

/-- Remove every entry with the given name, as shutil.rmtree on that
name leaves the directory without it. -/
def removeEntry (fs : FS) (name : String) : FS :=
  fs.filter (fun p => p.1 ≠ name)

/-- glob.glob with the pattern *.egg-info matches the names of the
current directory that end in .egg-info, except hidden names starting
with a dot (a leading * never matches a leading dot). -/
def matchesEggInfo (name : String) : Bool :=
  (String.toList (".egg-info")).isSuffixOf name.toList &&
  (match name.toList with
   | [] => false
   | c :: _ => c != '.')

/-- The *.egg-info arm of clean_build: every glob match that is a
directory is removed by shutil.rmtree; matches that are not directories
are skipped by the os.path.isdir test. -/
def cleanEggInfo (fs : FS) : FS :=
  fs.filter (fun p => !(matchesEggInfo p.1 && p.2.isDir))

/-- One non-glob arm of clean_build for a literal name: if the path
does not exist, do nothing (os.path.exists is false); if it exists and
is a directory, shutil.rmtree removes it; if it exists but is a regular
file, shutil.rmtree raises NotADirectoryError, modelled by the error
channel. -/
def removeNamed (fs : FS) (name : String) : Except Unit FS :=
  match lookupEntry fs name with
  | none => Except.ok fs
  | some Node.file => Except.error ()
  | some (Node.dir _) => Except.ok (removeEntry fs name)

/-- Embedding of clean_build (publish.py lines 43-60): process the
patterns build, dist, *.egg-info in that order; an exception from
shutil.rmtree aborts the whole function (error). -/
def clean_build (fs : FS) : Except Unit FS := do
  let fs1 ← removeNamed fs ("build")
  let fs2 ← removeNamed fs1 ("dist")
  Except.ok (cleanEggInfo fs2)

/-- The side-effect operations main can perform, in the order they are
invoked: clean_build, the build subprocess (python -m build), the twine
check subprocess, the upload to Test PyPI, the upload to PyPI. -/
inductive Event where
  | clean
  | buildCmd
  | checkCmd
  | uploadTest
  | uploadProd
deriving Repr, DecidableEq

/-- How the process ends: exited c models a normal return from main
(c = 0) or sys.exit(c); crashed models an uncaught Python exception
terminating the interpreter (which exits with a non-zero status). -/
inductive Outcome where
  | exited (code : Nat)
  | crashed
deriving Repr, DecidableEq

/-- The process exit status an outcome yields: the sys.exit code, or 1
for an uncaught exception (CPython exits with status 1 then). -/
def Outcome.exitCode : Outcome → Nat
  | Outcome.exited c => c
  | Outcome.crashed => 1

/-- Everything main reads from its environment: whether pyproject.toml
exists in the current directory, which modules import, the current
directory contents clean_build operates on, the two raw input lines
(menu choice and production confirmation), and whether each of the four
subprocess commands run through run_command reports success. -/
structure Env where
  pyprojectExists : Bool
  importable : String → Bool
  fs : FS
  choiceRaw : String
  confirmRaw : String
  buildCmdOk : Bool
  checkCmdOk : Bool
  uploadTestOk : Bool
  uploadProdOk : Bool

/-- Embedding of main (publish.py lines 86-163), named mainFlow because
Lean reserves the name main: the outcome of the process and the ordered
trace of side-effect operations invoked.
Mirrors the source line by line: marker check, requirements check, menu
read with strip, choice 4 handled first (clean only), invalid choice
rejected, then clean, build, check in order with sys.exit(1) on the
first failure, then the choice-specific tail: return for 1, Test PyPI
upload for 2, confirmation then PyPI upload for 3. -/
def mainFlow (env : Env) : Outcome × List Event :=
  if env.pyprojectExists = false then (Outcome.exited 1, [])
  else if (check_requirements env.importable).ok = false then
    (Outcome.exited 1, [])
  else
    let choice := pyStrip env.choiceRaw
    if choice = "4" then
      match clean_build env.fs with
      | Except.error _ => (Outcome.crashed, [Event.clean])
      | Except.ok _ => (Outcome.exited 0, [Event.clean])
    else if ¬(choice = "1" ∨ choice = "2" ∨ choice = "3") then
      (Outcome.exited 1, [])
    else
      match clean_build env.fs with
      | Except.error _ => (Outcome.crashed, [Event.clean])
      | Except.ok _ =>
        if env.buildCmdOk = false then
          (Outcome.exited 1, [Event.clean, Event.buildCmd])
        else if env.checkCmdOk = false then
          (Outcome.exited 1, [Event.clean, Event.buildCmd, Event.checkCmd])
        else if choice = "1" then
          (Outcome.exited 0, [Event.clean, Event.buildCmd, Event.checkCmd])
        else if choice = "2" then
          if env.uploadTestOk then
            (Outcome.exited 0,
             [Event.clean, Event.buildCmd, Event.checkCmd, Event.uploadTest])
          else
            (Outcome.exited 1,
             [Event.clean, Event.buildCmd, Event.checkCmd, Event.uploadTest])
        else
          if pyLower (pyStrip env.confirmRaw) ≠ "y" then
            (Outcome.exited 1, [Event.clean, Event.buildCmd, Event.checkCmd])
          else if env.uploadProdOk then
            (Outcome.exited 0,
             [Event.clean, Event.buildCmd, Event.checkCmd, Event.uploadProd])
          else
            (Outcome.exited 1,
             [Event.clean, Event.buildCmd, Event.checkCmd, Event.uploadProd])

/-- The keep predicate of one clean_build pass over the current
directory: an entry survives exactly when it is not named build, not
named dist, and not a directory matching the egg-info pattern. -/
def cleanKeep (p : String × Node) : Bool :=
  decide (p.1 ≠ ("build")) && decide (p.1 ≠ ("dist")) &&
    !(matchesEggInfo p.1 && p.2.isDir)

/-- Whether the named path is absent or a directory: exactly the
situations in which the build/dist arm of clean_build does not raise. -/
def notAFileAt (fs : FS) (name : String) : Bool :=
  match lookupEntry fs name with
  | none => true
  | some nd => nd.isDir

/-! ## Concrete scenario fixtures used by the witness theorems -/

/-- A sample current directory: build and dist directories with
contents, a top-level egg-info directory, a top-level egg-info regular
file, a subdirectory holding a nested egg-info directory, and an
unrelated file. -/
def fsSample : FS :=
  [("build", Node.dir [("lib", Node.dir [])]),
   ("dist", Node.dir [("pyframe.tar.gz", Node.file)]),
   ("pyframe.egg-info", Node.dir [("PKG-INFO", Node.file)]),
   ("notes.egg-info", Node.file),
   ("src", Node.dir [("nested.egg-info", Node.dir [])]),
   ("README.md", Node.file)]

/-- What one clean pass leaves of fsSample: the egg-info regular file,
the subdirectory with its nested egg-info directory, and the unrelated
file. -/
def fsSampleCleaned : FS :=
  [("notes.egg-info", Node.file),
   ("src", Node.dir [("nested.egg-info", Node.dir [])]),
   ("README.md", Node.file)]

/-- A baseline all-good environment: marker present, every tool
importable, the sample directory, menu choice 1, confirmation y, and
every subprocess succeeding. -/
def envBase : Env :=
  { pyprojectExists := true
    importable := fun _ => true
    fs := fsSample
    choiceRaw := "1"
    confirmRaw := "y"
    buildCmdOk := true
    checkCmdOk := true
    uploadTestOk := true
    uploadProdOk := true }

/-- Production publish chosen (with surrounding whitespace in the menu
input) and the confirmation answered N, which declines. -/
def envDeclined : Env :=
  { envBase with choiceRaw := " 3 ", confirmRaw := " N " }

/-- The build subprocess fails. -/
def envBuildFails : Env :=
  { envBase with buildCmdOk := false }

/-- pyproject.toml is absent from the current directory. -/
def envNoMarker : Env :=
  { envBase with pyprojectExists := false }

/-- Build and upload to Test PyPI chosen, everything succeeding. -/
def envTestUpload : Env :=
  { envBase with choiceRaw := "2" }

/-- Clean-only chosen while the entry named build is a regular file:
clean_build raises NotADirectoryError and the interpreter dies with an
uncaught exception although the marker is present, the tools import,
the choice is valid, and no subprocess ever fails. -/
def envBuildIsFile : Env :=
  { envBase with fs := [("build", Node.file)], choiceRaw := "4" }

/-! ## Helper lemmas about the filesystem model -/

/-- Looking up a name whose entry heads the list. -/
theorem lookupEntry_cons_pos (p : String × Node) (ps : FS) (n : String)
    (h : p.1 = n) : lookupEntry (p :: ps) n = some p.2 := by
  simp [lookupEntry, List.find?_cons_of_pos, h]

/-- Looking up a name past a non-matching head entry. -/
theorem lookupEntry_cons_neg (p : String × Node) (ps : FS) (n : String)
    (h : p.1 ≠ n) : lookupEntry (p :: ps) n = lookupEntry ps n := by
  simp [lookupEntry, List.find?_cons_of_neg, h]

/-- A name is absent exactly when no entry carries it. -/
theorem lookupEntry_eq_none (fs : FS) (n : String) :
    lookupEntry fs n = none ↔ ∀ p ∈ fs, p.1 ≠ n := by
  simp [lookupEntry, List.find?_eq_none]

/-- Removing one name does not change what another name resolves to. -/
theorem lookupEntry_removeEntry (fs : FS) (m n : String) (hnm : n ≠ m) :
    lookupEntry (removeEntry fs m) n = lookupEntry fs n := by
  induction fs with
  | nil => rfl
  | cons p ps ih =>
    by_cases hpm : p.1 = m
    · have h1 : removeEntry (p :: ps) m = removeEntry ps m := by
        simp [removeEntry, List.filter_cons, hpm]
      have h2 : p.1 ≠ n := fun h => hnm (h ▸ hpm)
      rw [h1, ih, lookupEntry_cons_neg p ps n h2]
    · have h1 : removeEntry (p :: ps) m = p :: removeEntry ps m := by
        simp [removeEntry, List.filter_cons, hpm]
      rw [h1]
      by_cases hpn : p.1 = n
      · rw [lookupEntry_cons_pos p _ n hpn, lookupEntry_cons_pos p ps n hpn]
      · rw [lookupEntry_cons_neg p _ n hpn, lookupEntry_cons_neg p ps n hpn, ih]

/-- Removing an absent name is the identity. -/
theorem removeEntry_of_none (fs : FS) (n : String)
    (h : lookupEntry fs n = none) : removeEntry fs n = fs := by
  rw [removeEntry, List.filter_eq_self]
  intro p hp
  simpa using (lookupEntry_eq_none fs n).mp h p hp

/-- Composing three filters into one. -/
theorem filter_filter_filter (a b c : α → Bool) (l : List α) :
    ((l.filter a).filter b).filter c =
      l.filter (fun x => a x && b x && c x) := by
  rw [List.filter_filter, List.filter_filter]
  exact List.filter_congr
    (fun x _ => by cases a x <;> cases b x <;> cases c x <;> rfl)

/-- Removing an absent literal path is a no-op, not an error: the
os.path.exists guard skips it. -/
theorem removeNamed_of_none (fs : FS) (n : String)
    (h : lookupEntry fs n = none) : removeNamed fs n = Except.ok fs := by
  simp [removeNamed, h]

/-- When clean_build returns, its result is the egg-info pass applied
after the build and dist removals. -/
theorem clean_build_ok_normal {fs fs' : FS}
    (h : clean_build fs = Except.ok fs') :
    fs' = cleanEggInfo (removeEntry (removeEntry fs ("build")) ("dist")) := by
  cases hb : lookupEntry fs ("build") with
  | none =>
    rw [removeEntry_of_none fs ("build") hb]
    cases hd : lookupEntry fs ("dist") with
    | none =>
      rw [removeEntry_of_none fs ("dist") hd]
      simp [clean_build, Bind.bind, Except.bind, removeNamed, hb, hd] at h
      exact h.symm
    | some nd =>
      cases nd with
      | file =>
        simp [clean_build, Bind.bind, Except.bind, removeNamed, hb, hd] at h
      | dir cs =>
        simp [clean_build, Bind.bind, Except.bind, removeNamed, hb, hd] at h
        exact h.symm
  | some nb =>
    cases nb with
    | file => simp [clean_build, Bind.bind, Except.bind, removeNamed, hb] at h
    | dir cs =>
      cases hd : lookupEntry (removeEntry fs ("build")) ("dist") with
      | none =>
        rw [removeEntry_of_none _ ("dist") hd]
        simp [clean_build, Bind.bind, Except.bind, removeNamed, hb, hd] at h
        exact h.symm
      | some nd =>
        cases nd with
        | file =>
          simp [clean_build, Bind.bind, Except.bind, removeNamed, hb, hd] at h
        | dir cs2 =>
          simp [clean_build, Bind.bind, Except.bind, removeNamed, hb, hd] at h
          exact h.symm

/-- When clean_build returns, its result is one filter of the current
directory by cleanKeep. -/
theorem clean_build_ok_filterForm {fs fs' : FS}
    (h : clean_build fs = Except.ok fs') : fs' = fs.filter cleanKeep := by
  rw [clean_build_ok_normal h]
  unfold cleanEggInfo removeEntry
  rw [filter_filter_filter]
  rfl

/-- Every entry of a clean_build result satisfies cleanKeep. -/
theorem cleanKeep_of_mem {fs fs' : FS} (h : clean_build fs = Except.ok fs')
    {p : String × Node} (hp : p ∈ fs') : cleanKeep p = true := by
  rw [clean_build_ok_filterForm h] at hp
  exact (List.mem_filter.mp hp).2

/-- A clean_build result is a fixed point: cleaning it again succeeds
and changes nothing. -/
theorem clean_build_fixed {fs fs' : FS}
    (h : clean_build fs = Except.ok fs') :
    clean_build fs' = Except.ok fs' := by
  have hb : lookupEntry fs' ("build") = none := by
    rw [lookupEntry_eq_none]
    intro p hp
    have hk := cleanKeep_of_mem h hp
    have := (Bool.and_eq_true _ _).mp ((Bool.and_eq_true _ _).mp hk).1
    exact of_decide_eq_true this.1
  have hd : lookupEntry fs' ("dist") = none := by
    rw [lookupEntry_eq_none]
    intro p hp
    have hk := cleanKeep_of_mem h hp
    have := (Bool.and_eq_true _ _).mp ((Bool.and_eq_true _ _).mp hk).1
    exact of_decide_eq_true this.2
  have hegg : cleanEggInfo fs' = fs' := by
    rw [cleanEggInfo, List.filter_eq_self]
    intro p hp
    exact ((Bool.and_eq_true _ _).mp (cleanKeep_of_mem h hp)).2
  simp [clean_build, Bind.bind, Except.bind, removeNamed, hb, hd, hegg]

/-! ## Claim theorems -/

/-- Claim C8: ArtifactCleaner (clean_build) is idempotent: whenever a
run completes on a filesystem state, a second run with no intervening
build completes too and leaves the state exactly as the first run left
it; and removing a path that does not exist is a no-op rather than an
error (the os.path.exists guard skips it). -/
theorem clean_build_idempotent (fs fs' : FS)
    (h : clean_build fs = Except.ok fs') :
    clean_build fs' = Except.ok fs' ∧
      ∀ gs n, lookupEntry gs n = none → removeNamed gs n = Except.ok gs :=
  ⟨clean_build_fixed h, fun gs n hn => removeNamed_of_none gs n hn⟩

/-- Witness for C8: the sample directory cleans to fsSampleCleaned,
cleaning that again is the identity, and removing the then-absent build
path is a no-op. -/
theorem clean_build_idempotent_witness :
    clean_build fsSampleCleaned = Except.ok fsSampleCleaned ∧
      removeNamed fsSampleCleaned ("build") = Except.ok fsSampleCleaned :=
  ⟨(clean_build_idempotent fsSample fsSampleCleaned rfl).1,
   (clean_build_idempotent fsSample fsSampleCleaned rfl).2
     fsSampleCleaned ("build") rfl⟩

/-- Claim C9: a completed clean_build keeps exactly the top-level
entries that are not named build or dist and are not directories
matching the egg-info glob; every kept entry (egg-info regular files,
egg-info directories nested inside subdirectories, and all unrelated
entries) survives unchanged with its whole subtree. -/
theorem clean_build_egg_info_frame (fs fs' : FS)
    (h : clean_build fs = Except.ok fs') :
    fs' = fs.filter cleanKeep :=
  clean_build_ok_filterForm h

/-- Witness for C9: on the sample directory the cleaned result is the
cleanKeep filter of the original: the egg-info regular file, the
subdirectory with its nested egg-info directory, and the unrelated file
survive. -/
theorem clean_build_egg_info_frame_witness :
    fsSampleCleaned = fsSample.filter cleanKeep :=
  clean_build_egg_info_frame fsSample fsSampleCleaned rfl

/-- Claim C10: clean_build completes without raising exactly when each
of the paths build and dist is either absent or a directory; when
either exists as a regular file the existence check passes but the
recursive removal raises, so the whole function raises. -/
theorem clean_build_ok_iff_not_file (fs : FS) :
    (∃ fs', clean_build fs = Except.ok fs') ↔
      (notAFileAt fs ("build") = true ∧ notAFileAt fs ("dist") = true) := by
  have hrw : lookupEntry (removeEntry fs ("build")) ("dist") =
      lookupEntry fs ("dist") :=
    lookupEntry_removeEntry fs ("build") ("dist") (by decide)
  constructor
  · rintro ⟨fs', h⟩
    cases hb : lookupEntry fs ("build") with
    | none =>
      cases hd : lookupEntry fs ("dist") with
      | none => simp [notAFileAt, hb, hd]
      | some nd =>
        cases nd with
        | file =>
          exfalso
          simp [clean_build, Bind.bind, Except.bind, removeNamed, hb, hd] at h
        | dir cs => simp [notAFileAt, hb, hd, Node.isDir]
    | some nb =>
      cases nb with
      | file =>
        exfalso
        simp [clean_build, Bind.bind, Except.bind, removeNamed, hb] at h
      | dir cs =>
        cases hd : lookupEntry fs ("dist") with
        | none => simp [notAFileAt, hb, hd, Node.isDir]
        | some nd =>
          cases nd with
          | file =>
            exfalso
            rw [hd] at hrw
            simp [clean_build, Bind.bind, Except.bind, removeNamed, hb,
              hrw] at h
          | dir cs2 => simp [notAFileAt, hb, hd, Node.isDir]
  · rintro ⟨h1, h2⟩
    cases hb : lookupEntry fs ("build") with
    | none =>
      cases hd : lookupEntry fs ("dist") with
      | none => simp [clean_build, Bind.bind, Except.bind, removeNamed, hb, hd]
      | some nd =>
        cases nd with
        | file => simp [notAFileAt, hd, Node.isDir] at h2
        | dir cs =>
          simp [clean_build, Bind.bind, Except.bind, removeNamed, hb, hd]
    | some nb =>
      cases nb with
      | file => simp [notAFileAt, hb, Node.isDir] at h1
      | dir cs =>
        cases hd : lookupEntry fs ("dist") with
        | none =>
          rw [hd] at hrw
          simp [clean_build, Bind.bind, Except.bind, removeNamed, hb, hrw]
        | some nd =>
          cases nd with
          | file => simp [notAFileAt, hd, Node.isDir] at h2
          | dir cs2 =>
            rw [hd] at hrw
            simp [clean_build, Bind.bind, Except.bind, removeNamed, hb, hrw]

/-- Counterexample for C6: run_command does raise past its boundary
when the child process cannot be spawned at all: subprocess.run raises
an OSError and run_command has no handler, so the exception escapes. -/
theorem run_command_spawn_raises :
    run_command ["python3", "-m", "build"] SpawnResult.spawnError =
      Except.error () := rfl

/-- Claim C6 (amended): whenever subprocess.run itself returns a
completed process, run_command raises nothing: it returns False with
the captured stderr printed when the return code is non-zero, and True
with the captured stdout printed when the return code is zero and the
stdout non-empty. -/
theorem run_command_completed (cmd : List String) (rc : Int)
    (out err : String) (res : SpawnResult)
    (h : res = SpawnResult.spawned rc out err) :
    run_command cmd res ≠ Except.error () ∧
      ∀ lines b, run_command cmd res = Except.ok (lines, b) →
        ((b = true ↔ rc = 0) ∧
         (rc ≠ 0 → ("Error: " ++ err) ∈ lines) ∧
         (rc = 0 → out ≠ "" → out ∈ lines)) := by
  subst h
  by_cases hrc : rc = 0
  · by_cases hout : out = ""
    · constructor
      · simp [run_command, hrc, hout]
      · intro lines b hl
        simp [run_command, hrc, hout] at hl
        constructor
        · simp [hl.2, hrc]
        · exact ⟨fun hc => absurd hrc hc, fun _ hc => absurd hout hc⟩
    · constructor
      · simp [run_command, hrc, hout]
      · intro lines b hl
        simp [run_command, hrc, hout] at hl
        constructor
        · simp [hl.2, hrc]
        · exact ⟨fun hc => absurd hrc hc, fun _ _ => by simp [← hl.1]⟩
  · constructor
    · simp [run_command, hrc]
    · intro lines b hl
      simp [run_command, hrc] at hl
      constructor
      · simp [hl.2, hrc]
      · exact ⟨fun _ => by simp [← hl.1], fun hc => absurd hc hrc⟩

/-- Witness for C6: a completed twine check that exits 1 yields a
returned failure, not an exception, and its stderr line is printed. -/
theorem run_command_completed_witness :
    run_command ["python3", "-m", "twine", "check", "dist/*"]
        (SpawnResult.spawned 1 "" "bad archive") ≠ Except.error () ∧
      ("Error: " ++ "bad archive") ∈
        ["Running: " ++ joinCmd ["python3", "-m", "twine", "check", "dist/*"],
         "❌ Command failed: " ++
           joinCmd ["python3", "-m", "twine", "check", "dist/*"],
         "Error: " ++ "bad archive"] :=
  ⟨(run_command_completed ["python3", "-m", "twine", "check", "dist/*"] 1 ""
      ("bad archive") (SpawnResult.spawned 1 "" "bad archive") rfl).1,
   ((run_command_completed ["python3", "-m", "twine", "check", "dist/*"] 1 ""
      ("bad archive") (SpawnResult.spawned 1 "" "bad archive") rfl).2 _ _
      rfl).2.1 (by decide)⟩

/-- Counterexample for C4: with no tool importable, check_requirements
returns immediately after attempting build only: twine, though in the
required list, is never attempted and gets no status line, refuting the
resolves-all-tools-before-returning claim. -/
theorem check_requirements_short_circuit :
    (check_requirements (fun _ => false)).attempted = ["build"] ∧
      "twine" ∈ required_packages ∧
      "twine" ∉ (check_requirements (fun _ => false)).attempted ∧
      (check_requirements (fun _ => false)).ok = false := by
  refine ⟨rfl, by decide, by decide, rfl⟩

/-- Claim C4 (amended): check_requirements walks the fixed required
list (build then twine) in order and prints a status line per attempted
tool, but returns false immediately at the first tool that fails to
resolve, skipping the rest; it attempts every tool exactly when build
resolves, and returns true exactly when every required tool resolves. -/
theorem check_requirements_spec (imp : String → Bool) :
    (check_requirements imp).ok = (imp ("build") && imp ("twine")) ∧
    (check_requirements imp).attempted =
      (if imp ("build") then ["build", "twine"] else ["build"]) ∧
    (check_requirements imp).lines =
      (if imp ("build") then
        (if imp ("twine") then
          ["✅ " ++ "build" ++ " is installed",
           "✅ " ++ "twine" ++ " is installed"]
         else
          ["✅ " ++ "build" ++ " is installed",
           "❌ " ++ "twine" ++ " is not installed",
           "Install with: pip install " ++ "twine"])
       else
        ["❌ " ++ "build" ++ " is not installed",
         "Install with: pip install " ++ "build"]) := by
  cases hb : imp ("build") <;> cases ht : imp ("twine") <;>
    simp [check_requirements, checkReqLoop, required_packages, hb, ht]

/-- Claim C3: when pyproject.toml is absent from the current directory,
the process exits 1 immediately: no subprocess is spawned and no
filesystem side effect (clean, build, check, upload) is attempted. -/
theorem mainFlow_missing_marker (env : Env)
    (h : env.pyprojectExists = false) :
    mainFlow env = (Outcome.exited 1, []) := by
  simp [mainFlow, h]

/-- Witness for C3: the concrete no-marker environment exits 1 with an
empty operation trace. -/
theorem mainFlow_missing_marker_witness :
    mainFlow envNoMarker = (Outcome.exited 1, []) :=
  mainFlow_missing_marker envNoMarker rfl

/-- Claim C2: in every run where the build subprocess reports failure,
the package check is never invoked and no upload is invoked; and when
the build step was reached at all, the process stops right after it
with exit status 1. -/
theorem mainFlow_build_failure_short_circuit (env : Env)
    (h : env.buildCmdOk = false) :
    Event.checkCmd ∉ (mainFlow env).2 ∧
    Event.uploadTest ∉ (mainFlow env).2 ∧
    Event.uploadProd ∉ (mainFlow env).2 ∧
    (Event.buildCmd ∈ (mainFlow env).2 →
      mainFlow env = (Outcome.exited 1, [Event.clean, Event.buildCmd])) := by
  cases hm : env.pyprojectExists with
  | false => simp [mainFlow, hm]
  | true =>
    cases hreq : (check_requirements env.importable).ok with
    | false => simp [mainFlow, hm, hreq]
    | true =>
      by_cases c4 : pyStrip env.choiceRaw = "4"
      · cases hc : clean_build env.fs with
        | error e => simp [mainFlow, hm, hreq, c4, hc]
        | ok gs => simp [mainFlow, hm, hreq, c4, hc]
      · by_cases cv : pyStrip env.choiceRaw = "1" ∨ pyStrip env.choiceRaw = "2"
            ∨ pyStrip env.choiceRaw = "3"
        · cases hc : clean_build env.fs with
          | error e => simp [mainFlow, hm, hreq, c4, cv, hc]
          | ok gs => simp [mainFlow, hm, hreq, c4, cv, hc, h]
        · simp [mainFlow, hm, hreq, c4, cv]

/-- Witness for C2: with the build subprocess failing, no check and no
upload happen and the run stops at the build step with exit 1. -/
theorem mainFlow_build_failure_short_circuit_witness :
    Event.checkCmd ∉ (mainFlow envBuildFails).2 ∧
    Event.uploadTest ∉ (mainFlow envBuildFails).2 ∧
    Event.uploadProd ∉ (mainFlow envBuildFails).2 ∧
    mainFlow envBuildFails =
      (Outcome.exited 1, [Event.clean, Event.buildCmd]) :=
  ⟨(mainFlow_build_failure_short_circuit envBuildFails rfl).1,
   (mainFlow_build_failure_short_circuit envBuildFails rfl).2.1,
   (mainFlow_build_failure_short_circuit envBuildFails rfl).2.2.1,
   (mainFlow_build_failure_short_circuit envBuildFails rfl).2.2.2
     (by decide)⟩

/-- Claim C1: on the production path (choice 3, build and check having
succeeded), the production upload is invoked if and only if the
confirmation input, stripped of surrounding whitespace and lowercased,
equals y; for every other confirmation input no upload of any kind is
invoked and the process exits 1. -/
theorem mainFlow_production_confirm_gate (env : Env)
    (hm : env.pyprojectExists = true)
    (hr : (check_requirements env.importable).ok = true)
    (hcl : ∃ gs, clean_build env.fs = Except.ok gs)
    (h3 : pyStrip env.choiceRaw = "3")
    (hb : env.buildCmdOk = true)
    (hk : env.checkCmdOk = true) :
    (Event.uploadProd ∈ (mainFlow env).2 ↔
       pyLower (pyStrip env.confirmRaw) = "y") ∧
    (pyLower (pyStrip env.confirmRaw) ≠ "y" →
       Event.uploadProd ∉ (mainFlow env).2 ∧
       Event.uploadTest ∉ (mainFlow env).2 ∧
       (mainFlow env).1 = Outcome.exited 1) := by
  obtain ⟨gs, hgs⟩ := hcl
  by_cases hy : pyLower (pyStrip env.confirmRaw) = "y"
  · cases hup : env.uploadProdOk with
    | false => simp [mainFlow, hm, hr, hgs, h3, hb, hk, hy, hup]
    | true => simp [mainFlow, hm, hr, hgs, h3, hb, hk, hy, hup]
  · simp [mainFlow, hm, hr, hgs, h3, hb, hk, hy]

/-- Witness for C1: choice 3 with confirmation input N (with
whitespace) performs no upload and exits 1; the gate equivalence holds
at this input. -/
theorem mainFlow_production_confirm_gate_witness :
    (Event.uploadProd ∈ (mainFlow envDeclined).2 ↔
       pyLower (pyStrip envDeclined.confirmRaw) = "y") ∧
    Event.uploadProd ∉ (mainFlow envDeclined).2 ∧
    Event.uploadTest ∉ (mainFlow envDeclined).2 ∧
    (mainFlow envDeclined).1 = Outcome.exited 1 :=
  ⟨(mainFlow_production_confirm_gate envDeclined rfl rfl
      ⟨fsSampleCleaned, rfl⟩ rfl rfl rfl).1,
   (mainFlow_production_confirm_gate envDeclined rfl rfl
      ⟨fsSampleCleaned, rfl⟩ rfl rfl rfl).2 (by decide)⟩

/-- Claim C7: each menu choice triggers exactly its prescribed sequence
of side-effect operations and no others: choice 4 cleans and nothing
else; choice 1 cleans, builds, checks and stops with no upload; choice
2 appends only the staging upload after a successful check; choice 3
appends only the production upload after a y confirmation; any other
input triggers none of the operations. -/
theorem mainFlow_menu_dispatch (env : Env)
    (hm : env.pyprojectExists = true)
    (hr : (check_requirements env.importable).ok = true)
    (hcl : ∃ gs, clean_build env.fs = Except.ok gs) :
    (pyStrip env.choiceRaw = "4" →
       mainFlow env = (Outcome.exited 0, [Event.clean])) ∧
    (pyStrip env.choiceRaw = "1" → env.buildCmdOk = true →
       env.checkCmdOk = true →
       mainFlow env =
         (Outcome.exited 0, [Event.clean, Event.buildCmd, Event.checkCmd])) ∧
    (pyStrip env.choiceRaw = "2" → env.buildCmdOk = true →
       env.checkCmdOk = true → env.uploadTestOk = true →
       mainFlow env =
         (Outcome.exited 0,
          [Event.clean, Event.buildCmd, Event.checkCmd, Event.uploadTest])) ∧
    (pyStrip env.choiceRaw = "3" → env.buildCmdOk = true →
       env.checkCmdOk = true → pyLower (pyStrip env.confirmRaw) = "y" →
       (mainFlow env).2 =
         [Event.clean, Event.buildCmd, Event.checkCmd, Event.uploadProd]) ∧
    (¬(pyStrip env.choiceRaw = "1" ∨ pyStrip env.choiceRaw = "2" ∨
         pyStrip env.choiceRaw = "3" ∨ pyStrip env.choiceRaw = "4") →
       mainFlow env = (Outcome.exited 1, [])) := by
  obtain ⟨gs, hgs⟩ := hcl
  refine ⟨?_, ?_, ?_, ?_, ?_⟩
  · intro c4
    simp [mainFlow, hm, hr, c4, hgs]
  · intro c1 hb hk
    simp [mainFlow, hm, hr, c1, hgs, hb, hk]
  · intro c2 hb hk hu
    simp [mainFlow, hm, hr, c2, hgs, hb, hk, hu]
  · intro c3 hb hk hy
    cases hup : env.uploadProdOk with
    | false => simp [mainFlow, hm, hr, c3, hgs, hb, hk, hy, hup]
    | true => simp [mainFlow, hm, hr, c3, hgs, hb, hk, hy, hup]
  · intro hnv
    rw [not_or, not_or, not_or] at hnv
    obtain ⟨h1, h2, h3, h4⟩ := hnv
    simp [mainFlow, hm, hr, h1, h2, h3, h4]

/-- Witness for C7: the choice-2 environment performs exactly clean,
build, check and the staging upload, exiting 0. -/
theorem mainFlow_menu_dispatch_witness :
    mainFlow envTestUpload =
      (Outcome.exited 0,
       [Event.clean, Event.buildCmd, Event.checkCmd, Event.uploadTest]) :=
  (mainFlow_menu_dispatch envTestUpload rfl rfl
      ⟨fsSampleCleaned, rfl⟩).2.2.1 rfl rfl rfl rfl

/-- Counterexample for C5 as stated: marker present, all tools
importable, valid menu choice 4, every subprocess set to succeed, and
the confirmation affirmative, yet the process ends with a non-zero
status: the entry named build is a regular file, so clean_build raises
an uncaught NotADirectoryError. This non-zero exit is outside the
claimed exhaustive list of non-zero cases. -/
theorem mainFlow_nonzero_outside_list :
    (mainFlow envBuildIsFile).1.exitCode ≠ 0 ∧
    envBuildIsFile.pyprojectExists = true ∧
    (check_requirements envBuildIsFile.importable).ok = true ∧
    pyStrip envBuildIsFile.choiceRaw = "4" ∧
    envBuildIsFile.buildCmdOk = true ∧
    envBuildIsFile.checkCmdOk = true ∧
    envBuildIsFile.uploadTestOk = true ∧
    envBuildIsFile.uploadProdOk = true ∧
    pyLower (pyStrip envBuildIsFile.confirmRaw) = "y" := by
  refine ⟨by decide, rfl, rfl, rfl, rfl, rfl, rfl, rfl, rfl⟩

/-- Claim C5 (amended): provided the artifact-cleaning step does not
raise (build and dist each absent or a directory), the process exit
status is zero exactly on normal completions: marker present, tools
importable, and either the clean-only choice 4, or a valid build choice
whose build and check succeed followed by the choice-specific tail
(nothing more for 1, a successful staging upload for 2, a y
confirmation and successful production upload for 3); every other run
exits non-zero. When cleaning raises, the process also terminates
non-zero, by an uncaught exception. -/
theorem mainFlow_exit_codes (env : Env)
    (hcl : ∃ gs, clean_build env.fs = Except.ok gs) :
    (mainFlow env).1 = Outcome.exited 0 ↔
      (env.pyprojectExists = true ∧
       (check_requirements env.importable).ok = true ∧
       (pyStrip env.choiceRaw = "4" ∨
        ((pyStrip env.choiceRaw = "1" ∨ pyStrip env.choiceRaw = "2" ∨
          pyStrip env.choiceRaw = "3") ∧
         env.buildCmdOk = true ∧ env.checkCmdOk = true ∧
         (pyStrip env.choiceRaw = "1" ∨
          (pyStrip env.choiceRaw = "2" ∧ env.uploadTestOk = true) ∨
          (pyStrip env.choiceRaw = "3" ∧
           pyLower (pyStrip env.confirmRaw) = "y" ∧
           env.uploadProdOk = true))))) := by
  obtain ⟨gs, hgs⟩ := hcl
  cases hm : env.pyprojectExists with
  | false => simp [mainFlow, hm]
  | true =>
    cases hreq : (check_requirements env.importable).ok with
    | false => simp [mainFlow, hm, hreq]
    | true =>
      by_cases c4 : pyStrip env.choiceRaw = "4"
      · simp [mainFlow, hm, hreq, c4, hgs]
      · by_cases c1 : pyStrip env.choiceRaw = "1"
        · cases hb : env.buildCmdOk with
          | false => simp [mainFlow, hm, hreq, c4, c1, hgs, hb]
          | true =>
            cases hk : env.checkCmdOk with
            | false => simp [mainFlow, hm, hreq, c4, c1, hgs, hb, hk]
            | true => simp [mainFlow, hm, hreq, c4, c1, hgs, hb, hk]
        · by_cases c2 : pyStrip env.choiceRaw = "2"
          · cases hb : env.buildCmdOk with
            | false => simp [mainFlow, hm, hreq, c4, c1, c2, hgs, hb]
            | true =>
              cases hk : env.checkCmdOk with
              | false => simp [mainFlow, hm, hreq, c4, c1, c2, hgs, hb, hk]
              | true =>
                cases hu : env.uploadTestOk with
                | false =>
                  simp [mainFlow, hm, hreq, c4, c1, c2, hgs, hb, hk, hu]
                | true =>
                  simp [mainFlow, hm, hreq, c4, c1, c2, hgs, hb, hk, hu]
          · by_cases c3 : pyStrip env.choiceRaw = "3"
            · cases hb : env.buildCmdOk with
              | false => simp [mainFlow, hm, hreq, c4, c1, c2, c3, hgs, hb]
              | true =>
                cases hk : env.checkCmdOk with
                | false =>
                  simp [mainFlow, hm, hreq, c4, c1, c2, c3, hgs, hb, hk]
                | true =>
                  by_cases hy : pyLower (pyStrip env.confirmRaw) = "y"
                  · cases hup : env.uploadProdOk with
                    | false =>
                      simp [mainFlow, hm, hreq, c4, c1, c2, c3, hgs, hb, hk,
                        hy, hup]
                    | true =>
                      simp [mainFlow, hm, hreq, c4, c1, c2, c3, hgs, hb, hk,
                        hy, hup]
                  · simp [mainFlow, hm, hreq, c4, c1, c2, c3, hgs, hb, hk, hy]
            · simp [mainFlow, hm, hreq, c4, c1, c2, c3]

/-- Witness for C5: the choice-2 all-success environment satisfies the
equivalence: it exits 0 and meets the normal-completion condition. -/
theorem mainFlow_exit_codes_witness :
    (mainFlow envTestUpload).1 = Outcome.exited 0 ↔
      (envTestUpload.pyprojectExists = true ∧
       (check_requirements envTestUpload.importable).ok = true ∧
       (pyStrip envTestUpload.choiceRaw = "4" ∨
        ((pyStrip envTestUpload.choiceRaw = "1" ∨
          pyStrip envTestUpload.choiceRaw = "2" ∨
          pyStrip envTestUpload.choiceRaw = "3") ∧
         envTestUpload.buildCmdOk = true ∧ envTestUpload.checkCmdOk = true ∧
         (pyStrip envTestUpload.choiceRaw = "1" ∨
          (pyStrip envTestUpload.choiceRaw = "2" ∧
           envTestUpload.uploadTestOk = true) ∨
          (pyStrip envTestUpload.choiceRaw = "3" ∧
           pyLower (pyStrip envTestUpload.confirmRaw) = "y" ∧
           envTestUpload.uploadProdOk = true))))) :=
  mainFlow_exit_codes envTestUpload ⟨fsSampleCleaned, rfl⟩
